import Mathlib

/-!
Verification development for the evaluation web application
(`web-texts-evaluations`): a shallow embedding, over exact rational
arithmetic, of the reliability-metrics service (`services/metrics.ts`),
the result-reconciliation logic (`addResults` / `handleResultsUpdate`),
the processing orchestrator (`ProcessingController.tsx`, `services/api.ts`)
and the SSE streaming session state machine (`hooks/useSSE.ts`), together
with theorems settling the specification's claims about them.

Numbers that the source manipulates as IEEE doubles are modelled as
rationals (`ℚ`); the two places where the source takes a square root
(`Math.sqrt` in `calculateStandardDeviation` and `calculateCorrelation`)
are modelled with `Real.sqrt` on the rational value, so the embedded
functions agree with the source's exact-arithmetic meaning.
-/

/-- `CSVRow` from `types/app.ts`: one uploaded record.  The three
`evaluacion_*` human scores are optional/possibly missing in the data the
code actually handles (`calculateMedian` filters `null`/`undefined`/`NaN`),
so all three are modelled as `Option ℚ`. -/
structure CSVRow where
  id_participante : String
  respuesta : String
  curso : String
  pregunta : String
  evaluacion_1 : Option ℚ
  evaluacion_2 : Option ℚ
  evaluacion_3 : Option ℚ
deriving DecidableEq

/-- `APIResponse` from `types/app.ts`: one model result arriving over SSE. -/
structure APIResponse where
  id_alumno : String
  nota : ℚ
  confianza : Option ℚ
  tiempo_procesamiento : Option ℚ
deriving DecidableEq

/-- The list of present (non-missing) human scores of a row, in field
order, as built by the filter at the start of `calculateMedian`
(`metrics.ts` lines 35-41). -/
def validScores (row : CSVRow) : List ℚ :=
  [row.evaluacion_1, row.evaluacion_2, row.evaluacion_3].filterMap id

/-- `calculateMedian` (`metrics.ts` lines 34-51): filter out missing
scores, sort ascending, take the middle element (odd count) or the mean
of the two middle elements (even count); `none` when no score remains.
The JavaScript `scores.sort((a, b) => a - b)` is an ascending sort of a
numeric list; it is embedded as `List.insertionSort (· ≤ ·)`, which
produces the same list (the sorted permutation is unique). -/
def calculateMedian (row : CSVRow) : Option ℚ :=
  let scores := List.insertionSort (· ≤ ·) (validScores row)
  if scores.length = 0 then none
  else
    let mid := scores.length / 2
    if scores.length % 2 ≠ 0 then some (scores.getD mid 0)
    else some ((scores.getD (mid - 1) 0 + scores.getD mid 0) / 2)

/-- `calculateICC31` (`metrics.ts` lines 57-104): ICC(3,1) of the model
scores against the human medians, computed exactly as the source's loop
does (the loop also accumulates `SST`, which the source never uses for
the result, so it is omitted).  Returns `none` when the lengths differ,
fewer than 2 pairs exist, or the denominator `MSB + MSW` is zero;
otherwise the ICC clamped to `[0, 1]`. -/
def calculateICC31 (modelScores humanMedians : List ℚ) : Option ℚ :=
  if modelScores.length ≠ humanMedians.length ∨ modelScores.length < 2 then none
  else
    let n : ℚ := (modelScores.length : ℚ)
    let mean1 := modelScores.sum / n
    let mean2 := humanMedians.sum / n
    let grandMean := (mean1 + mean2) / 2
    let pairs := modelScores.zip humanMedians
    let SSB := (pairs.map (fun p => 2 * ((p.1 + p.2) / 2 - grandMean) ^ 2)).sum
    let SSW := (pairs.map (fun p =>
        (p.1 - (p.1 + p.2) / 2) ^ 2 + (p.2 - (p.1 + p.2) / 2) ^ 2)).sum
    let MSB := SSB / (n - 1)
    let MSW := SSW / n
    let denominator := MSB + MSW
    if denominator = 0 then none
    else some (max 0 (min 1 ((MSB - MSW) / denominator)))

/-! Spec-side restatement of the ICC(3,1) computation, written from the
specification's words (index-wise sums over the n pairs) rather than from
the source's fold over a zipped list, for the refinement claim comparing
the two. -/

/-- Spec: `grandMean = (mean(modelScores) + mean(humanMedians)) / 2`. -/
def specGrandMean (m h : List ℚ) : ℚ :=
  (m.sum / (m.length : ℚ) + h.sum / (h.length : ℚ)) / 2

/-- Spec: per-pair row mean, `rowMean_i = (model_i + human_i) / 2`. -/
def specRowMean (m h : List ℚ) (i : ℕ) : ℚ :=
  (m.getD i 0 + h.getD i 0) / 2

/-- Spec: `SSB = Σ_i 2 · (rowMean_i − grandMean)²`. -/
def specSSB (m h : List ℚ) : ℚ :=
  ∑ i ∈ Finset.range m.length, 2 * (specRowMean m h i - specGrandMean m h) ^ 2

/-- Spec: `SSW = Σ_i (model_i − rowMean_i)² + (human_i − rowMean_i)²`. -/
def specSSW (m h : List ℚ) : ℚ :=
  ∑ i ∈ Finset.range m.length,
    ((m.getD i 0 - specRowMean m h i) ^ 2 + (h.getD i 0 - specRowMean m h i) ^ 2)

/-- Spec: `MSB = SSB / (n − 1)`. -/
def specMSB (m h : List ℚ) : ℚ := specSSB m h / ((m.length : ℚ) - 1)

/-- Spec: `MSW = SSW / n`. -/
def specMSW (m h : List ℚ) : ℚ := specSSW m h / (m.length : ℚ)

/-- The ICC(3,1) computation as the specification words it: null exactly
when the lengths differ, `n < 2`, or `MSB + MSW` is exactly zero, and
otherwise `(MSB − MSW) / (MSB + MSW)` clamped to `[0, 1]`. -/
def specICC31 (m h : List ℚ) : Option ℚ :=
  if m.length = h.length ∧ 2 ≤ m.length ∧ specMSB m h + specMSW m h ≠ 0 then
    some (max 0 (min 1 ((specMSB m h - specMSW m h) / (specMSB m h + specMSW m h))))
  else none

/-! Result reconciliation: deduplication of incoming result batches and the
merged-view projection. -/

/-- The batch-merge step of `createMetricsCalculator.addResults`
(`metrics.ts` lines 335-341), identical in logic to `handleResultsUpdate`
in `App.tsx`: incoming results whose `id_alumno` is already present in the
current store are filtered out, the remaining ones are appended.  The
source's `Set`-membership test `existingIds.has(r.id_alumno)` is embedded
as a list-membership test over the current ids. -/
def addResults (current additional : List APIResponse) : List APIResponse :=
  current ++ additional.filter (fun r => ! current.any (fun c => c.id_alumno == r.id_alumno))

/-- One merged row as produced by `combineDataWithResults`: the original
row's fields, the matched result's fields when present (the two field sets
are disjoint, so the JavaScript object spread keeps both intact), and the
two derived fields. -/
structure MergedRow where
  original : CSVRow
  result : Option APIResponse
  mediana_humana : Option ℚ
  desviacion : Option ℚ
deriving DecidableEq

/-- `combineDataWithResults` (`metrics.ts` lines 198-221): map over the
original rows in upload order; for each, the first result whose
`id_alumno` equals the row's `id_participante`, the row's human median,
and the absolute deviation when both sides exist. -/
def combineDataWithResults (originalData : List CSVRow) (apiResults : List APIResponse) :
    List MergedRow :=
  originalData.map (fun originalRow =>
    let result := apiResults.find? (fun r => r.id_alumno == originalRow.id_participante)
    let mediana_humana := calculateMedian originalRow
    let desviacion :=
      match result, mediana_humana with
      | some res, some m => some |res.nota - m|
      | _, _ => none
    ⟨originalRow, result, mediana_humana, desviacion⟩)

/-! The complete metrics computation (`calculateMetrics` and its
auxiliaries). -/

/-- One valid comparison pair, as pushed onto `validPairs` inside
`calculateMetrics` (`metrics.ts` lines 258-262). -/
structure ComparisonPair where
  model : ℚ
  human : ℚ
  deviation : ℚ
deriving DecidableEq

/-- The `validPairs` array built by `calculateMetrics` (`metrics.ts`
lines 249-263): iterate the original rows in order; skip rows with no
matching result and rows with no human median. -/
def validPairs (originalData : List CSVRow) (apiResults : List APIResponse) :
    List ComparisonPair :=
  originalData.filterMap (fun originalRow =>
    match apiResults.find? (fun r => r.id_alumno == originalRow.id_participante) with
    | none => none
    | some result =>
      match calculateMedian originalRow with
      | none => none
      | some humanMedian => some ⟨result.nota, humanMedian, |result.nota - humanMedian|⟩)

/-- `calculateStandardDeviation` (`metrics.ts` lines 156-164): sample
standard deviation (sum of squared deviations over `n − 1`), `none` when
fewer than 2 values; `Math.sqrt` is `Real.sqrt` of the exact rational
variance. -/
noncomputable def calculateStandardDeviation (values : List ℚ) : Option ℝ :=
  if values.length < 2 then none
  else
    let mean := values.sum / (values.length : ℚ)
    let variance := (values.map (fun val => (val - mean) ^ 2)).sum / ((values.length : ℚ) - 1)
    some (Real.sqrt (variance : ℝ))

/-- The `numerator` accumulated by the loop of `calculateCorrelation`
(`metrics.ts` lines 176-187). -/
def corrNumerator (x y : List ℚ) : ℚ :=
  ((x.zip y).map (fun p =>
    (p.1 - x.sum / (x.length : ℚ)) * (p.2 - y.sum / (y.length : ℚ)))).sum

/-- The `denomX` accumulated by the loop of `calculateCorrelation`. -/
def corrDenomX (x y : List ℚ) : ℚ :=
  ((x.zip y).map (fun p => (p.1 - x.sum / (x.length : ℚ)) ^ 2)).sum

/-- The `denomY` accumulated by the loop of `calculateCorrelation`. -/
def corrDenomY (x y : List ℚ) : ℚ :=
  ((x.zip y).map (fun p => (p.2 - y.sum / (y.length : ℚ)) ^ 2)).sum

open Classical in
/-- `calculateCorrelation` (`metrics.ts` lines 169-193): Pearson
correlation; `none` when the lengths differ, fewer than 2 points, or the
denominator `Math.sqrt(denomX * denomY)` is zero. -/
noncomputable def calculateCorrelation (x y : List ℚ) : Option ℝ :=
  if x.length ≠ y.length ∨ x.length < 2 then none
  else
    let denominator := Real.sqrt ((corrDenomX x y * corrDenomY x y : ℚ) : ℝ)
    if denominator = 0 then none
    else some ((corrNumerator x y : ℝ) / denominator)

/-- The `qualityLevel` union type of `metrics.ts`. -/
inductive QualityLevel where
  | poor
  | moderate
  | good
  | excellent
  | unknown
deriving DecidableEq

/-- The record returned by `getICCInterpretation` (`metrics.ts`
lines 109-151). -/
structure ICCInterpretationInfo where
  interpretation : String
  qualityLevel : QualityLevel
  color : String
deriving DecidableEq

/-- `getICCInterpretation` (`metrics.ts` lines 109-151): fixed banding
thresholds 0.5 / 0.75 / 0.9. -/
def getICCInterpretation (icc : Option ℚ) : ICCInterpretationInfo :=
  match icc with
  | none => ⟨"No calculado", QualityLevel.unknown, "text-gray-500"⟩
  | some icc =>
    if icc < 0.5 then ⟨"Pobre", QualityLevel.poor, "text-red-600"⟩
    else if icc < 0.75 then ⟨"Moderado", QualityLevel.moderate, "text-amber-600"⟩
    else if icc < 0.9 then ⟨"Bueno", QualityLevel.good, "text-blue-600"⟩
    else ⟨"Excelente", QualityLevel.excellent, "text-green-600"⟩

/-- `Math.min(...deviations)` over a list (the list is non-empty wherever
the source spreads it). -/
def listMin (l : List ℚ) : ℚ :=
  match l with
  | [] => 0
  | a :: t => t.foldl min a

/-- `Math.max(...deviations)` over a list. -/
def listMax (l : List ℚ) : ℚ :=
  match l with
  | [] => 0
  | a :: t => t.foldl max a

/-- The `stats` record of `MetricsResult` (`metrics.ts` lines 16-23 and
293-300). -/
structure MetricsStats where
  modelMean : ℚ
  humanMean : ℚ
  correlation : ℝ
  minDeviation : ℚ
  maxDeviation : ℚ
  validPairs : ℕ

/-- The `interpretation` record of `MetricsResult`. -/
structure MetricsInterpretation where
  iccInterpretation : String
  reliabilityMessage : String
  qualityLevel : QualityLevel

/-- `MetricsResult` (`metrics.ts` lines 10-29). -/
structure MetricsResult where
  icc : Option ℚ
  meanDeviation : Option ℚ
  stdDeviation : Option ℝ
  reliabilityMet : Bool
  processedCount : ℕ
  stats : Option MetricsStats
  interpretation : MetricsInterpretation

/-- `calculateMetrics` (`metrics.ts` lines 226-321). -/
noncomputable def calculateMetrics (originalData : List CSVRow) (apiResults : List APIResponse) :
    MetricsResult :=
  let processedCount := apiResults.length
  if processedCount = 0 then
    { icc := none, meanDeviation := none, stdDeviation := none, reliabilityMet := false,
      processedCount := 0, stats := none,
      interpretation :=
        ⟨"No calculado", "Sin datos procesados", QualityLevel.unknown⟩ }
  else
    let pairs := validPairs originalData apiResults
    if pairs.length < 2 then
      { icc := none, meanDeviation := none, stdDeviation := none, reliabilityMet := false,
        processedCount := processedCount, stats := none,
        interpretation :=
          ⟨"Datos insuficientes", "Se necesitan al menos 2 pares válidos",
            QualityLevel.unknown⟩ }
    else
      let modelScores := pairs.map ComparisonPair.model
      let humanScores := pairs.map ComparisonPair.human
      let deviations := pairs.map ComparisonPair.deviation
      let icc := calculateICC31 modelScores humanScores
      let meanDeviation := deviations.sum / (deviations.length : ℚ)
      let stdDeviation := calculateStandardDeviation deviations
      let reliabilityMet : Bool :=
        match icc with
        | none => false
        | some i => decide ((0.8 : ℚ) < i)
      let iccInfo := getICCInterpretation icc
      { icc := icc, meanDeviation := some meanDeviation, stdDeviation := stdDeviation,
        reliabilityMet := reliabilityMet, processedCount := processedCount,
        stats := some
          { modelMean := modelScores.sum / (modelScores.length : ℚ),
            humanMean := humanScores.sum / (humanScores.length : ℚ),
            correlation := (calculateCorrelation modelScores humanScores).getD 0,
            minDeviation := listMin deviations,
            maxDeviation := listMax deviations,
            validPairs := pairs.length },
        interpretation :=
          ⟨iccInfo.interpretation,
            if reliabilityMet then "El modelo muestra alta fiabilidad (ICC > 0.8)"
            else "El modelo necesita mejoras de fiabilidad (ICC ≤ 0.8)",
            iccInfo.qualityLevel⟩ }

/-! The processing session (progress updates and job start). -/

/-- `Math.round`: JavaScript rounds half toward positive infinity. -/
def mathRound (q : ℚ) : ℤ := ⌊q + 1 / 2⌋

/-- The `progress` record of `ProcessingState` (`types/app.ts`). -/
structure Progress where
  completed : ℕ
  total : ℕ
  percentage : ℤ
deriving DecidableEq

/-- `ProcessingState` (`types/app.ts`).  `timeRemaining` is an elapsed-time
estimate whose value depends on wall-clock sampling, kept abstract. -/
structure ProcessingState where
  isActive : Bool
  jobId : Option String
  progress : Progress
  timeRemaining : Option ℚ
deriving DecidableEq

/-- The initial processing state created at app start (`App.tsx`). -/
def initialProcessingState : ProcessingState :=
  ⟨false, none, ⟨0, 0, 0⟩, none⟩

/-- The progress part of `handleProgress` (`ProcessingController.tsx`
lines 74-88): store `{completed, total, percentage := Math.round(completed
/ total * 100)}` and the freshly derived time-remaining estimate (the
latter depends on `Date.now()` and is passed in as a parameter). -/
def handleProgress (completed total : ℕ) (timeRemaining : Option ℚ)
    (prev : ProcessingState) : ProcessingState :=
  { prev with
    progress := ⟨completed, total, mathRound ((completed : ℚ) / (total : ℚ) * 100)⟩,
    timeRemaining := timeRemaining }

/-- `APIClient.startEvaluation` response handling (`services/api.ts`
lines 124-158): a network/HTTP failure or a response with no `job_id`
becomes an error (with the source's message prefix); otherwise the job id
is returned.  The HTTP exchange itself is external and enters as the
`httpResult` parameter: `.error e` for a thrown network/HTTP error,
`.ok none` for a 2xx response whose body lacks `job_id`, `.ok (some j)`
for a response carrying `job_id = j`. -/
def startEvaluation (httpResult : Except String (Option String)) : Except String String :=
  match httpResult with
  | Except.error e => Except.error ("Error iniciando evaluación: " ++ e)
  | Except.ok none =>
      Except.error ("Error iniciando evaluación: " ++ "Respuesta del servidor inválida: falta job_id")
  | Except.ok (some jobId) => Except.ok jobId

/-- `handleStartProcessing` (`ProcessingController.tsx` lines 209-243):
guard on empty endpoint/data, optimistically mark the session active with
zeroed progress over `data.length` items, then either record the returned
job id or, on a failed submission, surface the error and set the session
inactive with no job id.  Returns the resulting session state and the
surfaced error, if any. -/
def handleStartProcessing (data : List CSVRow) (endpointUrl : String)
    (submit : Except String String) (prev : ProcessingState) :
    ProcessingState × Option String :=
  if endpointUrl = "" ∨ data.length = 0 then (prev, none)
  else
    let s1 : ProcessingState :=
      { prev with isActive := true, progress := ⟨0, data.length, 0⟩, timeRemaining := none }
    match submit with
    | Except.ok jobId => ({ s1 with jobId := some jobId }, none)
    | Except.error msg =>
        ({ s1 with isActive := false, jobId := none },
          some ("Error al iniciar procesamiento: " ++ msg))

/-! The SSE streaming session state machine (`hooks/useSSE.ts`). -/

/-- `SSEConfig` (`useSSE.ts` lines 8-12). -/
structure SSEConfig where
  maxReconnectAttempts : ℕ
  reconnectInterval : ℕ
  timeout : ℕ
deriving DecidableEq

/-- `DEFAULT_CONFIG` (`useSSE.ts` lines 30-34). -/
def defaultSSEConfig : SSEConfig := ⟨5, 3000, 30000⟩

/-- The configuration `useProcessingSSE` passes (`useSSE.ts`
lines 310-314). -/
def processingSSEConfig : SSEConfig := ⟨3, 2000, 10000⟩

/-- The error messages the hook stores in `state.error`, as symbolic
values. -/
inductive SSEErrorMsg where
  | serverConnectionError
  | retryingConnection (attempt maxAttempts : ℕ)
  | couldNotReconnect
  | connectionTimeout
deriving DecidableEq

/-- `SSEState` (`useSSE.ts` lines 14-19). -/
structure SSEState where
  isConnected : Bool
  isConnecting : Bool
  error : Option SSEErrorMsg
  reconnectCount : ℕ
deriving DecidableEq

/-- The observable session: the hook's `SSEState` plus whether a
reconnection timer (`reconnectTimeoutRef`) is pending. -/
structure SSESession where
  state : SSEState
  reconnectTimerPending : Bool
deriving DecidableEq

/-- The hook's initial state (`useSSE.ts` lines 55-60), with no pending
timer. -/
def initialSSESession : SSESession := ⟨⟨false, false, none, 0⟩, false⟩

/-- `eventSource.onopen` (`useSSE.ts` lines 98-108): connected, error
cleared, and the reconnection counter reset to 0. -/
def stepOpen (s : SSESession) : SSESession :=
  { s with state := ⟨true, false, none, 0⟩ }

/-- `eventSource.onerror` in the non-closed case (`useSSE.ts`
lines 149-191): record the connection error; then, if the counter has
reached `maxReconnectAttempts`, store the terminal could-not-reconnect
error and schedule nothing, otherwise increment the counter, flag
`isConnecting`, and schedule a reconnection attempt after the fixed
delay. -/
def stepError (cfg : SSEConfig) (s : SSESession) : SSESession :=
  let s1 : SSEState :=
    { s.state with
      isConnected := false
      isConnecting := false
      error := some SSEErrorMsg.serverConnectionError }
  if cfg.maxReconnectAttempts ≤ s1.reconnectCount then
    { s with state :=
        { s1 with
          isConnecting := false
          error := some SSEErrorMsg.couldNotReconnect } }
  else
    { state :=
        { s1 with
          reconnectCount := s1.reconnectCount + 1
          isConnecting := true
          error := some (SSEErrorMsg.retryingConnection (s1.reconnectCount + 1)
            cfg.maxReconnectAttempts) }
      reconnectTimerPending := true }

/-- The scheduled reconnection timer firing (`useSSE.ts` lines 177-183):
the timer is consumed and a new `EventSource` attempt begins (whose own
open/error event then drives the next transition). -/
def stepTimerFires (s : SSESession) : SSESession :=
  { s with reconnectTimerPending := false }

/-- The manual `reconnect` operation (`useSSE.ts` lines 253-258): reset
the counter to 0, then `connectToSSE`, which tears down the old connection
(cancelling any pending reconnection timer), flags `isConnecting`, clears
the error, and opens a new `EventSource` immediately — no delay timer. -/
def reconnect (_s : SSESession) : SSESession :=
  ⟨⟨false, true, none, 0⟩, false⟩

/-- A dropped connection followed by `k` failed reconnection attempts:
the initial transport error, then `k` rounds of the scheduled attempt
firing and failing in turn. -/
def errorCascade (cfg : SSEConfig) (s : SSESession) : ℕ → SSESession
  | 0 => stepError cfg s
  | k + 1 => stepError cfg (stepTimerFires (errorCascade cfg s k))

/-- The terminal `Closed` situation of the streaming session: the
could-not-reconnect error is stored and no reconnection attempt is
scheduled or in progress. -/
def closedTerminal (s : SSESession) : Prop :=
  s.state.error = some SSEErrorMsg.couldNotReconnect ∧
    s.reconnectTimerPending = false ∧ s.state.isConnecting = false

lemma sum_map_zip_getD (f : ℚ × ℚ → ℚ) :
    ∀ (m h : List ℚ), m.length = h.length →
      ((m.zip h).map f).sum = ∑ i ∈ Finset.range m.length, f (m.getD i 0, h.getD i 0) := by
  intro m
  induction m with
  | nil => intro h hl; simp
  | cons a m ih =>
    intro h hl
    cases h with
    | nil => simp at hl
    | cons b h =>
      simp only [List.length_cons, Nat.succ_eq_add_one] at hl
      have hl' : m.length = h.length := by omega
      simp only [List.zip_cons_cons, List.map_cons, List.sum_cons, List.length_cons]
      rw [Finset.sum_range_succ']
      simp only [List.getD_cons_succ, List.getD_cons_zero]
      rw [ih h hl']
      ring

lemma icc31_eq_spec (m h : List ℚ) : calculateICC31 m h = specICC31 m h := by
  unfold calculateICC31 specICC31
  by_cases hc : m.length ≠ h.length ∨ m.length < 2
  · rw [if_pos hc]
    rw [if_neg]
    intro ⟨h1, h2, _⟩
    rcases hc with hc | hc
    · exact hc h1
    · omega
  · rw [if_neg hc]
    push_neg at hc
    obtain ⟨hlen, hn⟩ := hc
    have hgm : (m.sum / (m.length : ℚ) + h.sum / (m.length : ℚ)) / 2 = specGrandMean m h := by
      rw [specGrandMean, hlen]
    have hSSB : ((m.zip h).map (fun p =>
        2 * ((p.1 + p.2) / 2 - (m.sum / (m.length : ℚ) + h.sum / (m.length : ℚ)) / 2) ^ 2)).sum
        = specSSB m h := by
      rw [sum_map_zip_getD _ m h hlen, specSSB]
      refine Finset.sum_congr rfl (fun i _ => ?_)
      rw [hgm, specRowMean]
    have hSSW : ((m.zip h).map (fun p =>
        (p.1 - (p.1 + p.2) / 2) ^ 2 + (p.2 - (p.1 + p.2) / 2) ^ 2)).sum = specSSW m h := by
      rw [sum_map_zip_getD _ m h hlen, specSSW]
      refine Finset.sum_congr rfl (fun i _ => ?_)
      rw [specRowMean]
    simp only []
    rw [hSSB, hSSW]
    by_cases hz : specSSB m h / ((m.length : ℚ) - 1) + specSSW m h / (m.length : ℚ) = 0
    · rw [if_pos hz, if_neg]
      intro ⟨_, _, hne⟩
      exact hne (by rw [specMSB, specMSW]; exact hz)
    · rw [if_neg hz, if_pos ⟨hlen, by omega, by rw [specMSB, specMSW]; exact hz⟩]
      rw [specMSB, specMSW]

/-- Claim C1: for every pair of equal-length numeric arrays with `n ≥ 2`,
`calculateICC31` computes ICC(3,1) exactly as specified (grand mean, row
means, SSB, SSW, MSB = SSB/(n−1), MSW = SSW/n, clamped ratio), and it
returns null exactly when `n < 2`, the lengths differ, or `MSB + MSW` is
exactly zero.  Stated as: the source function coincides with the
spec-side `specICC31` on all inputs, together with the exact
characterisation of the null cases. -/
theorem claim_C1_icc_formula (m h : List ℚ) :
    calculateICC31 m h = specICC31 m h ∧
    (calculateICC31 m h = none ↔
      m.length ≠ h.length ∨ m.length < 2 ∨ specMSB m h + specMSW m h = 0) := by
  refine ⟨icc31_eq_spec m h, ?_⟩
  rw [icc31_eq_spec m h, specICC31]
  by_cases hc : m.length = h.length ∧ 2 ≤ m.length ∧ specMSB m h + specMSW m h ≠ 0
  · rw [if_pos hc]
    obtain ⟨h1, h2, h3⟩ := hc
    constructor
    · intro hsome; exact absurd hsome (by simp)
    · intro hor
      rcases hor with h' | h' | h'
      · exact absurd h1 h'
      · omega
      · exact absurd h' h3
  · rw [if_neg hc]
    constructor
    · intro _
      by_contra hor
      push_neg at hor
      exact hc ⟨hor.1, by omega, hor.2.2⟩
    · intro _; rfl

/-- Claim C4, amended: for every pair of identical arrays of length ≥ 2
whose values are not all equal, `calculateICC31` returns 1; when all
values are equal the denominator is zero and the result is null
(see the counterexample). -/
theorem claim_C4_identical_nonconstant (v : List ℚ) (h2 : 2 ≤ v.length)
    (hne : ∃ a ∈ v, ∃ b ∈ v, a ≠ b) : calculateICC31 v v = some 1 := by
  rw [icc31_eq_spec]
  have hmean : specGrandMean v v = v.sum / (v.length : ℚ) := by
    rw [specGrandMean]; ring
  have hrow : ∀ i, specRowMean v v i = v.getD i 0 := by
    intro i; rw [specRowMean]; ring
  have hSSW : specSSW v v = 0 := by
    rw [specSSW]
    apply Finset.sum_eq_zero
    intro i _
    rw [hrow]
    ring
  have hSSB_pos : 0 < specSSB v v := by
    rw [specSSB]
    obtain ⟨a, ha, b, hb, hab⟩ := hne
    have hex : ∃ a' ∈ v, a' ≠ v.sum / (v.length : ℚ) := by
      by_contra hall
      push_neg at hall
      exact hab ((hall a ha).trans (hall b hb).symm)
    obtain ⟨a', ha', hne'⟩ := hex
    obtain ⟨i, hi, hgi⟩ := List.mem_iff_getElem.mp ha'
    apply Finset.sum_pos'
    · intro j _
      have : (0:ℚ) ≤ (specRowMean v v j - specGrandMean v v) ^ 2 := sq_nonneg _
      linarith
    · refine ⟨i, Finset.mem_range.mpr hi, ?_⟩
      rw [hrow, hmean, List.getD_eq_getElem v 0 hi, hgi]
      have hsub : a' - v.sum / (v.length : ℚ) ≠ 0 := sub_ne_zero.mpr hne'
      have := sq_pos_of_ne_zero hsub
      linarith
  have hn1 : (0:ℚ) < (v.length : ℚ) - 1 := by
    have : (2:ℚ) ≤ (v.length : ℚ) := by exact_mod_cast h2
    linarith
  have hMSB_pos : 0 < specMSB v v := by
    rw [specMSB]
    exact div_pos hSSB_pos hn1
  have hMSW_zero : specMSW v v = 0 := by
    rw [specMSW, hSSW, zero_div]
  have hdenom : specMSB v v + specMSW v v ≠ 0 := by
    rw [hMSW_zero, add_zero]
    exact hMSB_pos.ne'
  rw [specICC31, if_pos ⟨rfl, h2, hdenom⟩]
  rw [hMSW_zero, sub_zero, add_zero, div_self hMSB_pos.ne']
  norm_num

/-- Claim C4, counterexample: the claim says `calculateICC31` returns 1
on every pair of identical arrays of length ≥ 2; on the identical constant
arrays `[5, 5]` and `[5, 5]` the denominator `MSB + MSW` is zero and the
function returns null, not 1. -/
theorem claim_C4_counterexample :
    calculateICC31 [5, 5] [5, 5] = none ∧ calculateICC31 [5, 5] [5, 5] ≠ some 1 := by
  have h : calculateICC31 [5, 5] [5, 5] = none := by norm_num [calculateICC31]
  exact ⟨h, by rw [h]; simp⟩

/-- Claim C4, witness: the amended theorem applied to the identical
non-constant arrays `[0, 1]` and `[0, 1]`. -/
theorem claim_C4_witness :
    2 ≤ ([0, 1] : List ℚ).length ∧ (∃ a ∈ ([0, 1] : List ℚ), ∃ b ∈ ([0, 1] : List ℚ), a ≠ b) ∧
      calculateICC31 [0, 1] [0, 1] = some 1 :=
  ⟨by norm_num, ⟨0, by norm_num, 1, by norm_num, by norm_num⟩,
    claim_C4_identical_nonconstant [0, 1] (by norm_num)
      ⟨0, by norm_num, 1, by norm_num, by norm_num⟩⟩

/-- Claim C9: `calculateMedian` filters out missing values, sorts the
remaining scores ascending (the list it selects from is a sorted
permutation of the valid scores), returns the middle element for an odd
count, the mean of the two middle elements for an even count, and null
exactly when zero valid scores remain; in particular
median [7] = 7, median [7, 9] = 8, median [6, 7, 9] = 7. -/
theorem claim_C9_median (row : CSVRow) :
    (∃ scores : List ℚ, scores.Perm (validScores row) ∧ scores.Sorted (· ≤ ·) ∧
      calculateMedian row =
        (if scores.length = 0 then none
         else if scores.length % 2 ≠ 0 then some (scores.getD (scores.length / 2) 0)
         else some ((scores.getD (scores.length / 2 - 1) 0 +
           scores.getD (scores.length / 2) 0) / 2))) ∧
    (calculateMedian row = none ↔ validScores row = []) ∧
    calculateMedian ⟨"r1", "", "", "", some 7, none, none⟩ = some 7 ∧
    calculateMedian ⟨"r2", "", "", "", some 7, some 9, none⟩ = some 8 ∧
    calculateMedian ⟨"r3", "", "", "", some 6, some 7, some 9⟩ = some 7 := by
  refine ⟨⟨List.insertionSort (· ≤ ·) (validScores row),
      List.perm_insertionSort _ _, List.sorted_insertionSort _ _, rfl⟩, ?_, ?_, ?_, ?_⟩
  · have hlen : (List.insertionSort (· ≤ ·) (validScores row)).length =
        (validScores row).length := (List.perm_insertionSort _ _).length_eq
    unfold calculateMedian
    by_cases h0 : (List.insertionSort (· ≤ ·) (validScores row)).length = 0
    · rw [if_pos h0]
      simp only [true_iff]
      rw [hlen] at h0
      exact List.length_eq_zero.mp h0
    · rw [if_neg h0]
      constructor
      · intro hcontra
        by_cases hodd : (List.insertionSort (· ≤ ·) (validScores row)).length % 2 ≠ 0
        · rw [if_pos hodd] at hcontra; exact absurd hcontra (by simp)
        · rw [if_neg hodd] at hcontra; exact absurd hcontra (by simp)
      · intro hnil
        refine absurd ?_ h0
        rw [hnil]
        simp
  · norm_num [calculateMedian, validScores, List.insertionSort, List.orderedInsert]
  · norm_num [calculateMedian, validScores, List.insertionSort, List.orderedInsert]
  · norm_num [calculateMedian, validScores, List.insertionSort, List.orderedInsert]

/-- Claim C5: `combineDataWithResults` returns a merged array whose
length equals the original-row list's length and whose rows are the
original rows in upload order (mapping each merged row back to its
original row recovers the original list exactly), for every result list —
so the merged view's length and order are independent of the results'
arrival order, and a result matching no original row never changes the
merged view's length. -/
theorem claim_C5_merged_order (originalData : List CSVRow) (apiResults : List APIResponse) :
    (combineDataWithResults originalData apiResults).length = originalData.length ∧
    (combineDataWithResults originalData apiResults).map MergedRow.original = originalData ∧
    (∀ otherResults : List APIResponse,
      (combineDataWithResults originalData otherResults).length =
        (combineDataWithResults originalData apiResults).length) := by
  refine ⟨List.length_map _ _, ?_, fun otherResults => by
    simp [combineDataWithResults]⟩
  simp only [combineDataWithResults, List.map_map]
  have hcomp : (MergedRow.original ∘ fun originalRow =>
      (⟨originalRow, apiResults.find? (fun r => r.id_alumno == originalRow.id_participante),
        calculateMedian originalRow,
        match apiResults.find? (fun r => r.id_alumno == originalRow.id_participante),
          calculateMedian originalRow with
        | some res, some m => some |res.nota - m|
        | _, _ => none⟩ : MergedRow)) = id := funext fun row => rfl
  rw [hcomp, List.map_id]

lemma mathRound_eq_100_iff (c t : ℕ) (ht : 0 < t) :
    mathRound ((c : ℚ) / (t : ℚ) * 100) = 100 ↔ 199 * t ≤ 200 * c ∧ 200 * c < 201 * t := by
  have htq : (0 : ℚ) < (t : ℚ) := by exact_mod_cast ht
  have hkey : (c : ℚ) / (t : ℚ) * 100 * (t : ℚ) = 100 * (c : ℚ) := by
    field_simp
    ring
  rw [mathRound, Int.floor_eq_iff]
  constructor
  · rintro ⟨h1, h2⟩
    push_cast at h1 h2
    constructor
    · have : (199 : ℚ) * (t : ℚ) ≤ 200 * (c : ℚ) := by nlinarith
      exact_mod_cast this
    · have : (200 : ℚ) * (c : ℚ) < 201 * (t : ℚ) := by nlinarith
      exact_mod_cast this
  · rintro ⟨h1, h2⟩
    have h1q : (199 : ℚ) * (t : ℚ) ≤ 200 * (c : ℚ) := by exact_mod_cast h1
    have h2q : (200 : ℚ) * (c : ℚ) < 201 * (t : ℚ) := by exact_mod_cast h2
    constructor
    · push_cast
      nlinarith
    · push_cast
      nlinarith

/-- Claim C3, counterexample: the claim says the stored percentage
equals 100 only when `completed ≥ total`; but a progress update with
`completed = 996`, `total = 1000` stores
`round(996/1000·100) = round(99.6) = 100` although `996 < 1000`. -/
theorem claim_C3_counterexample :
    (handleProgress 996 1000 none initialProcessingState).progress.percentage = 100 ∧
    ¬ (1000 ≤ 996) := by
  constructor
  · show mathRound ((996 : ℚ) / (1000 : ℚ) * 100) = 100
    rw [mathRound, Int.floor_eq_iff]
    norm_num
  · norm_num

/-- Claim C3, amended: for every progress update the stored percentage
equals `round(completed/total·100)` (JavaScript half-up rounding), and it
equals 100 exactly when `199·total ≤ 200·completed < 201·total` — which
`completed ≥ total` implies (then the percentage is at least 100) but
which can also hold with `completed < total`; a batch reporting
`completed = 150`, `total = 1500` yields percentage 10. -/
theorem claim_C3_progress (completed total : ℕ) (tr : Option ℚ) (prev : ProcessingState)
    (ht : 0 < total) :
    (handleProgress completed total tr prev).progress.completed = completed ∧
    (handleProgress completed total tr prev).progress.total = total ∧
    (handleProgress completed total tr prev).progress.percentage =
      mathRound ((completed : ℚ) / (total : ℚ) * 100) ∧
    ((handleProgress completed total tr prev).progress.percentage = 100 ↔
      199 * total ≤ 200 * completed ∧ 200 * completed < 201 * total) ∧
    (total ≤ completed → 100 ≤ (handleProgress completed total tr prev).progress.percentage) ∧
    (handleProgress 150 1500 tr prev).progress.percentage = 10 := by
  refine ⟨rfl, rfl, rfl, mathRound_eq_100_iff completed total ht, ?_, ?_⟩
  · intro hct
    show (100 : ℤ) ≤ mathRound ((completed : ℚ) / (total : ℚ) * 100)
    rw [mathRound, Int.le_floor]
    have htq : (0 : ℚ) < (total : ℚ) := by exact_mod_cast ht
    have hctq : (total : ℚ) ≤ (completed : ℚ) := by exact_mod_cast hct
    have hdiv : (1 : ℚ) ≤ (completed : ℚ) / (total : ℚ) := (one_le_div htq).mpr hctq
    push_cast
    nlinarith
  · show mathRound ((150 : ℚ) / (1500 : ℚ) * 100) = 10
    rw [mathRound, Int.floor_eq_iff]
    norm_num

/-- Claim C2, counterexample: the claim says a repeat arrival for an
already-known identifier replaces the earlier result, so the retained
entry is the latest arrival.  Applying a batch carrying `("a", nota 1)`
and then a batch carrying `("a", nota 2)` leaves the store holding the
FIRST result (nota 1), not the latest: the dedup filter discards the
repeat arrival instead of overwriting. -/
theorem claim_C2_counterexample :
    addResults (addResults [] [⟨"a", 1, none, none⟩]) [⟨"a", 2, none, none⟩] =
      [⟨"a", 1, none, none⟩] ∧
    ((⟨"a", 1, none, none⟩ : APIResponse).nota ≠ (⟨"a", 2, none, none⟩ : APIResponse).nota) := by
  constructor
  · rfl
  · norm_num

/-- Claim C2, amended: applying result batches repeatedly with
overlapping identifiers leaves the store with exactly one entry per
identifier (given identifier-duplicate-free store and batch), but a
repeat arrival for an already-known identifier is discarded, so the
retained entry for each identifier is the EARLIEST arrival (the first
match by identifier is unchanged by later batches); and the merged view's
length equals the original row count regardless of how many batches were
applied. -/
theorem claim_C2_first_arrival (current batch : List APIResponse) :
    ((current.map APIResponse.id_alumno).Nodup → (batch.map APIResponse.id_alumno).Nodup →
      ((addResults current batch).map APIResponse.id_alumno).Nodup) ∧
    (∀ r ∈ current, r ∈ addResults current batch) ∧
    (∀ id : String, current.any (fun c => c.id_alumno == id) = true →
      (addResults current batch).find? (fun c => c.id_alumno == id) =
        current.find? (fun c => c.id_alumno == id)) ∧
    (∀ originalData : List CSVRow,
      (combineDataWithResults originalData (addResults current batch)).length =
        originalData.length) := by
  refine ⟨?_, ?_, ?_, fun d => List.length_map _ _⟩
  · intro hc hb
    rw [addResults, List.map_append, List.nodup_append]
    refine ⟨hc, ((List.filter_sublist _).map _).nodup hb, ?_⟩
    intro x hx1 hx2
    simp only [List.mem_map, List.mem_filter] at hx1 hx2
    obtain ⟨c, hcmem, hce⟩ := hx1
    obtain ⟨r, ⟨hrmem, hrf⟩, hre⟩ := hx2
    rw [Bool.not_eq_true'] at hrf
    rw [List.any_eq_false] at hrf
    exact hrf c hcmem (beq_iff_eq.mpr (hce.trans hre.symm))
  · intro r hr
    rw [addResults]
    exact List.mem_append_left _ hr
  · intro id hany
    rw [addResults, List.find?_append]
    have hsome : (current.find? (fun c => c.id_alumno == id)).isSome := by
      rw [List.find?_isSome]
      simpa [List.any_eq_true] using hany
    obtain ⟨c, hc⟩ := Option.isSome_iff_exists.mp hsome
    rw [hc]
    rfl

/-- Claim C2, witness: the amended theorem applied to the store
`[("a", nota 1)]` and the overlapping batch `[("a", nota 2)]`. -/
theorem claim_C2_witness :
    (((addResults [⟨"a", 1, none, none⟩] [⟨"a", 2, none, none⟩]).map
        APIResponse.id_alumno).Nodup) ∧
    ((addResults [⟨"a", 1, none, none⟩] [⟨"a", 2, none, none⟩]).find?
        (fun c => c.id_alumno == "a") =
      ([⟨"a", 1, none, none⟩] : List APIResponse).find? (fun c => c.id_alumno == "a")) :=
  ⟨(claim_C2_first_arrival [⟨"a", 1, none, none⟩] [⟨"a", 2, none, none⟩]).1
      (by simp) (by simp),
    (claim_C2_first_arrival [⟨"a", 1, none, none⟩] [⟨"a", 2, none, none⟩]).2.2.1 "a" (by simp)⟩

/-- Claim C3, witness: the amended theorem applied to the batch
`completed = 150`, `total = 1500`. -/
theorem claim_C3_witness :
    0 < 1500 ∧
      (handleProgress 150 1500 none initialProcessingState).progress.percentage = 10 :=
  ⟨by norm_num,
    (claim_C3_progress 150 1500 none initialProcessingState (by norm_num)).2.2.2.2.2⟩

lemma errorCascade_formula (cfg : SSEConfig) (k : ℕ) (hk : k < cfg.maxReconnectAttempts) :
    errorCascade cfg (stepOpen initialSSESession) k =
      ⟨⟨false, true, some (SSEErrorMsg.retryingConnection (k + 1) cfg.maxReconnectAttempts),
        k + 1⟩, true⟩ := by
  induction k with
  | zero =>
    have h0 : ¬ (cfg.maxReconnectAttempts ≤ 0) := by omega
    simp [errorCascade, stepError, stepOpen, initialSSESession, h0]
  | succ k ih =>
    have hk' : k < cfg.maxReconnectAttempts := by omega
    have hns : ¬ (cfg.maxReconnectAttempts ≤ k + 1) := by omega
    rw [errorCascade, ih hk']
    simp [stepTimerFires, stepError, hns]

/-- Claim C7: in the streaming session state machine the reconnection
attempt counter is reset to 0 on every successful transition into
Connected, manual reconnect also resets the counter and re-attempts
immediately (no delay timer pending), and a dropped connection followed by
failed reconnection attempts reaches the terminal could-not-reconnect
Closed state after exactly `maxReconnectAttempts` failed attempts — for
every earlier prefix the session is not terminal and another attempt is
scheduled. -/
theorem claim_C7_reconnection (cfg : SSEConfig) :
    (∀ s : SSESession, (stepOpen s).state.reconnectCount = 0 ∧
      (stepOpen s).state.isConnected = true ∧ (stepOpen s).state.error = none) ∧
    (∀ s : SSESession, (reconnect s).state.reconnectCount = 0 ∧
      (reconnect s).state.isConnecting = true ∧
      (reconnect s).reconnectTimerPending = false) ∧
    (∀ k : ℕ, k < cfg.maxReconnectAttempts →
      ¬ closedTerminal (errorCascade cfg (stepOpen initialSSESession) k) ∧
      (errorCascade cfg (stepOpen initialSSESession) k).state.reconnectCount = k + 1 ∧
      (errorCascade cfg (stepOpen initialSSESession) k).reconnectTimerPending = true) ∧
    closedTerminal
      (errorCascade cfg (stepOpen initialSSESession) cfg.maxReconnectAttempts) ∧
    (errorCascade cfg (stepOpen initialSSESession)
        cfg.maxReconnectAttempts).state.error = some SSEErrorMsg.couldNotReconnect := by
  refine ⟨fun s => ⟨rfl, rfl, rfl⟩, fun s => ⟨rfl, rfl, rfl⟩, ?_, ?_⟩
  · intro k hk
    rw [errorCascade_formula cfg k hk]
    refine ⟨?_, rfl, rfl⟩
    intro ⟨herr, _, _⟩
    exact absurd herr (by simp)
  · rcases Nat.eq_zero_or_pos cfg.maxReconnectAttempts with hz | hpos
    · have h0 : cfg.maxReconnectAttempts ≤ 0 := by omega
      have hres : errorCascade cfg (stepOpen initialSSESession) cfg.maxReconnectAttempts =
          ⟨⟨false, false, some SSEErrorMsg.couldNotReconnect, 0⟩, false⟩ := by
        rw [hz]
        simp [errorCascade, stepError, stepOpen, initialSSESession, h0]
      rw [hres]
      exact ⟨⟨rfl, rfl, rfl⟩, rfl⟩
    · obtain ⟨m, hm⟩ : ∃ m, cfg.maxReconnectAttempts = m + 1 :=
        ⟨cfg.maxReconnectAttempts - 1, by omega⟩
      have hge : cfg.maxReconnectAttempts ≤ m + 1 := by omega
      have hres : errorCascade cfg (stepOpen initialSSESession) cfg.maxReconnectAttempts =
          ⟨⟨false, false, some SSEErrorMsg.couldNotReconnect, m + 1⟩, false⟩ := by
        conv_lhs => rw [hm]
        rw [errorCascade, errorCascade_formula cfg m (by omega)]
        simp [stepTimerFires, stepError, hge]
      rw [hres]
      exact ⟨⟨rfl, rfl, rfl⟩, rfl⟩

/-- Claim C7, witness: the theorem applied to `useProcessingSSE`'s
configuration (`maxReconnectAttempts = 3`). -/
theorem claim_C7_witness :
    (0 < processingSSEConfig.maxReconnectAttempts ∧
      ¬ closedTerminal (errorCascade processingSSEConfig (stepOpen initialSSESession) 0) ∧
      (errorCascade processingSSEConfig (stepOpen initialSSESession) 0).state.reconnectCount
        = 1) ∧
    closedTerminal (errorCascade processingSSEConfig (stepOpen initialSSESession) 3) :=
  ⟨⟨by decide,
      ((claim_C7_reconnection processingSSEConfig).2.2.1 0 (by decide)).1,
      ((claim_C7_reconnection processingSSEConfig).2.2.1 0 (by decide)).2.1⟩,
    (claim_C7_reconnection processingSSEConfig).2.2.2.1⟩

/-- Claim C8, counterexample: the claim says the observable session
state after a failed start is the same inactive state as if no job had
been created; after a failed submission over one data row the session is
inactive with no job id, yet `progress.total` was left at 1 (the attempted
row count), so the state differs from the initial never-started state. -/
theorem claim_C8_counterexample :
    ((handleStartProcessing [⟨"a", "", "", "", some 5, none, none⟩] "http://api"
        (startEvaluation (Except.error "Network error")) initialProcessingState).1 ≠
      initialProcessingState) ∧
    (handleStartProcessing [⟨"a", "", "", "", some 5, none, none⟩] "http://api"
        (startEvaluation (Except.error "Network error")) initialProcessingState).1.isActive
      = false ∧
    (handleStartProcessing [⟨"a", "", "", "", some 5, none, none⟩] "http://api"
        (startEvaluation (Except.error "Network error")) initialProcessingState).1.jobId
      = none ∧
    (handleStartProcessing [⟨"a", "", "", "", some 5, none, none⟩] "http://api"
        (startEvaluation (Except.error "Network error"))
        initialProcessingState).1.progress.total = 1 := by
  refine ⟨?_, rfl, rfl, rfl⟩
  intro hcontra
  have : (1 : ℕ) = 0 := congrArg (fun s => s.progress.total) hcontra
  exact absurd this (by norm_num)

/-- Claim C8, amended: when job submission fails (network/HTTP error or
a response missing `job_id`), the start operation aborts with a surfaced
error and the session ends inactive with no job identifier and no
remaining-time estimate; however the progress record keeps the optimistic
pre-submission value `{0, data.length, 0}` rather than being restored, so
the state is not byte-identical to the never-started state. -/
theorem claim_C8_failed_start (data : List CSVRow) (endpointUrl : String) (e : String)
    (prev : ProcessingState) (httpResult : Except String (Option String))
    (hurl : endpointUrl ≠ "") (hdata : data ≠ [])
    (hfail : startEvaluation httpResult = Except.error e) :
    (handleStartProcessing data endpointUrl (startEvaluation httpResult) prev).1.isActive
      = false ∧
    (handleStartProcessing data endpointUrl (startEvaluation httpResult) prev).1.jobId
      = none ∧
    (handleStartProcessing data endpointUrl (startEvaluation httpResult) prev).2
      = some ("Error al iniciar procesamiento: " ++ e) ∧
    (handleStartProcessing data endpointUrl (startEvaluation httpResult) prev).1.progress
      = ⟨0, data.length, 0⟩ ∧
    (handleStartProcessing data endpointUrl (startEvaluation httpResult) prev).1.timeRemaining
      = none ∧
    startEvaluation (Except.ok none) =
      Except.error "Error iniciando evaluación: Respuesta del servidor inválida: falta job_id" := by
  have hcond : ¬ (endpointUrl = "" ∨ data.length = 0) := by
    intro hor
    rcases hor with h | h
    · exact hurl h
    · exact hdata (List.length_eq_zero.mp h)
  rw [handleStartProcessing, if_neg hcond, hfail]
  exact ⟨rfl, rfl, rfl, rfl, rfl, rfl⟩

/-- Claim C8, witness: the amended theorem applied to a one-row data
set and a response missing `job_id`. -/
theorem claim_C8_witness :
    ("http://api" : String) ≠ "" ∧
    ([⟨"a", "", "", "", some 5, none, none⟩] : List CSVRow) ≠ [] ∧
    startEvaluation (Except.ok none) =
      Except.error "Error iniciando evaluación: Respuesta del servidor inválida: falta job_id" ∧
    (handleStartProcessing [⟨"a", "", "", "", some 5, none, none⟩] "http://api"
        (startEvaluation (Except.ok none)) initialProcessingState).1.isActive = false ∧
    (handleStartProcessing [⟨"a", "", "", "", some 5, none, none⟩] "http://api"
        (startEvaluation (Except.ok none)) initialProcessingState).1.jobId = none ∧
    (handleStartProcessing [⟨"a", "", "", "", some 5, none, none⟩] "http://api"
        (startEvaluation (Except.ok none)) initialProcessingState).2 =
      some ("Error al iniciar procesamiento: " ++
        "Error iniciando evaluación: Respuesta del servidor inválida: falta job_id") :=
  ⟨by decide, by decide, rfl,
    (claim_C8_failed_start _ "http://api"
      "Error iniciando evaluación: Respuesta del servidor inválida: falta job_id"
      initialProcessingState (Except.ok none) (by decide) (by decide) rfl).1,
    (claim_C8_failed_start _ "http://api"
      "Error iniciando evaluación: Respuesta del servidor inválida: falta job_id"
      initialProcessingState (Except.ok none) (by decide) (by decide) rfl).2.1,
    (claim_C8_failed_start _ "http://api"
      "Error iniciando evaluación: Respuesta del servidor inválida: falta job_id"
      initialProcessingState (Except.ok none) (by decide) (by decide) rfl).2.2.1⟩

lemma validPairs_nil (d : List CSVRow) : validPairs d [] = [] := by
  unfold validPairs
  rw [List.filterMap_eq_nil_iff]
  intro row _
  rfl

lemma validPairs_append_unmatched (d : List CSVRow) (r : List APIResponse) (u : APIResponse)
    (hu : ∀ row ∈ d, row.id_participante ≠ u.id_alumno) :
    validPairs d (r ++ [u]) = validPairs d r := by
  unfold validPairs
  apply List.filterMap_congr
  intro row hrow
  have hfind : (r ++ [u]).find? (fun x => x.id_alumno == row.id_participante) =
      r.find? (fun x => x.id_alumno == row.id_participante) := by
    rw [List.find?_append]
    have hpu : (u.id_alumno == row.id_participante) = false := by
      rw [beq_eq_false_iff_ne]
      exact fun hequ => hu row hrow hequ.symm
    cases hfr : r.find? (fun x => x.id_alumno == row.id_participante) with
    | none => simp [List.find?, hpu]
    | some c => rfl
  rw [hfind]

/-- Claim C6: a model result whose identifier matches no original row
does not change the metrics computation: the valid comparison pairs, ICC,
mean deviation and stats are all unchanged by its arrival (the total
function never fails), and every valid pair arises from an original row
with a matching result and a present human median. -/
theorem claim_C6_unmatched_excluded (d : List CSVRow) (r : List APIResponse)
    (u : APIResponse) (hu : ∀ row ∈ d, row.id_participante ≠ u.id_alumno) :
    validPairs d (r ++ [u]) = validPairs d r ∧
    (calculateMetrics d (r ++ [u])).icc = (calculateMetrics d r).icc ∧
    (calculateMetrics d (r ++ [u])).meanDeviation = (calculateMetrics d r).meanDeviation ∧
    (calculateMetrics d (r ++ [u])).stats = (calculateMetrics d r).stats ∧
    (∀ p ∈ validPairs d r, ∃ row ∈ d, ∃ res ∈ r,
      res.id_alumno = row.id_participante ∧ calculateMedian row = some p.human ∧
        p.model = res.nota) := by
  have hvp := validPairs_append_unmatched d r u hu
  have hchar : ∀ p ∈ validPairs d r, ∃ row ∈ d, ∃ res ∈ r,
      res.id_alumno = row.id_participante ∧ calculateMedian row = some p.human ∧
        p.model = res.nota := by
    intro p hp
    unfold validPairs at hp
    rw [List.mem_filterMap] at hp
    obtain ⟨row, hrow, hrowp⟩ := hp
    cases hfind : r.find? (fun x => x.id_alumno == row.id_participante) with
    | none => rw [hfind] at hrowp; exact absurd hrowp (by simp)
    | some res =>
      rw [hfind] at hrowp
      cases hmed : calculateMedian row with
      | none => rw [hmed] at hrowp; exact absurd hrowp (by simp)
      | some m =>
        rw [hmed] at hrowp
        simp only [Option.some_inj] at hrowp
        refine ⟨row, hrow, res, List.mem_of_find?_eq_some hfind, ?_, ?_, ?_⟩
        · have := List.find?_some hfind
          rwa [beq_iff_eq] at this
        · rw [hmed, ← hrowp]
        · rw [← hrowp]
  rcases List.eq_nil_or_concat r with hr | _
  case inl =>
    subst hr
    rw [List.nil_append]
    have hvpnil : validPairs d [] = [] := validPairs_nil d
    have hvpu : validPairs d [u] = [] := by
      have := validPairs_append_unmatched d [] u hu
      rwa [List.nil_append, hvpnil] at this
    refine ⟨by rw [List.nil_append] at hvp; exact hvp, ?_, ?_, ?_, ?_⟩
    · unfold calculateMetrics
      simp [hvpu]
    · unfold calculateMetrics
      simp [hvpu]
    · unfold calculateMetrics
      simp [hvpu]
    · rw [hvpnil]
      intro p hp
      exact absurd hp (by simp)
  case inr h =>
    have hrne : r ≠ [] := by
      obtain ⟨l, a, rfl⟩ := h
      simp
    have hlen1 : (r ++ [u]).length ≠ 0 := by simp
    have hlen2 : r.length ≠ 0 := fun hc => hrne (List.length_eq_zero.mp hc)
    refine ⟨hvp, ?_, ?_, ?_, hchar⟩ <;>
    · unfold calculateMetrics
      rw [if_neg hlen1, if_neg hlen2, hvp]
      by_cases hp2 : (validPairs d r).length < 2
      · rw [if_pos hp2, if_pos hp2]
      · rw [if_neg hp2, if_neg hp2]

/-- Claim C6, witness: the theorem applied to two matched rows plus an
unmatched result with identifier `"zz"`. -/
theorem claim_C6_witness :
    (∀ row ∈ ([⟨"a", "", "", "", some 3, none, none⟩,
        ⟨"b", "", "", "", some 4, none, none⟩] : List CSVRow),
      row.id_participante ≠ (⟨"zz", 9, none, none⟩ : APIResponse).id_alumno) ∧
    validPairs [⟨"a", "", "", "", some 3, none, none⟩, ⟨"b", "", "", "", some 4, none, none⟩]
        ([⟨"a", 5, none, none⟩, ⟨"b", 5, none, none⟩] ++ [⟨"zz", 9, none, none⟩]) =
      validPairs [⟨"a", "", "", "", some 3, none, none⟩, ⟨"b", "", "", "", some 4, none, none⟩]
        [⟨"a", 5, none, none⟩, ⟨"b", 5, none, none⟩] ∧
    (calculateMetrics [⟨"a", "", "", "", some 3, none, none⟩,
        ⟨"b", "", "", "", some 4, none, none⟩]
        ([⟨"a", 5, none, none⟩, ⟨"b", 5, none, none⟩] ++ [⟨"zz", 9, none, none⟩])).icc =
      (calculateMetrics [⟨"a", "", "", "", some 3, none, none⟩,
        ⟨"b", "", "", "", some 4, none, none⟩]
        [⟨"a", 5, none, none⟩, ⟨"b", 5, none, none⟩]).icc :=
  ⟨by decide,
    (claim_C6_unmatched_excluded _ _ _ (by decide)).1,
    (claim_C6_unmatched_excluded _ _ _ (by decide)).2.1⟩

lemma calculateCorrelation_none (x y : List ℚ)
    (hvar : corrDenomX x y * corrDenomY x y = 0) : calculateCorrelation x y = none := by
  unfold calculateCorrelation
  split
  · rfl
  · have hcast : ((corrDenomX x y * corrDenomY x y : ℚ) : ℝ) = 0 := by
      rw [hvar]
      norm_num
    simp only [hcast, Real.sqrt_zero]
    rw [if_pos trivial]

/-- Claim C10 (implicit): whenever `calculateMetrics` runs with at
least 2 valid comparison pairs but the Pearson correlation is undefined
(the product of the two variances' sums is zero, so `calculateCorrelation`
returns null), the returned `stats.correlation` field is 0, not null. -/
theorem claim_C10_undefined_correlation_reported_zero (d : List CSVRow)
    (r : List APIResponse) (h2 : 2 ≤ (validPairs d r).length)
    (hvar : corrDenomX ((validPairs d r).map ComparisonPair.model)
        ((validPairs d r).map ComparisonPair.human) *
      corrDenomY ((validPairs d r).map ComparisonPair.model)
        ((validPairs d r).map ComparisonPair.human) = 0) :
    calculateCorrelation ((validPairs d r).map ComparisonPair.model)
        ((validPairs d r).map ComparisonPair.human) = none ∧
    ∃ s, (calculateMetrics d r).stats = some s ∧ s.correlation = 0 := by
  have hnone := calculateCorrelation_none _ _ hvar
  refine ⟨hnone, ?_⟩
  have hrne : r.length ≠ 0 := by
    intro hc
    rw [List.length_eq_zero.mp hc, validPairs_nil] at h2
    exact absurd h2 (by norm_num)
  unfold calculateMetrics
  rw [if_neg hrne, if_neg (by omega : ¬ (validPairs d r).length < 2)]
  exact ⟨_, rfl, by rw [hnone]; rfl⟩

/-- Claim C10, witness: the theorem applied to two valid pairs with
constant model scores `[5, 5]` (zero variance). -/
theorem claim_C10_witness :
    2 ≤ (validPairs [⟨"a", "", "", "", some 3, none, none⟩,
        ⟨"b", "", "", "", some 4, none, none⟩]
        [⟨"a", 5, none, none⟩, ⟨"b", 5, none, none⟩]).length ∧
    ∃ s, (calculateMetrics [⟨"a", "", "", "", some 3, none, none⟩,
        ⟨"b", "", "", "", some 4, none, none⟩]
        [⟨"a", 5, none, none⟩, ⟨"b", 5, none, none⟩]).stats = some s ∧ s.correlation = 0 := by
  have hvp : validPairs [⟨"a", "", "", "", some 3, none, none⟩,
      ⟨"b", "", "", "", some 4, none, none⟩]
      [⟨"a", 5, none, none⟩, ⟨"b", 5, none, none⟩] =
      [⟨5, 3, 2⟩, ⟨5, 4, 1⟩] := by
    have hab : (("a" : String) == "b") = false := by decide
    have hba : (("b" : String) == "a") = false := by decide
    have haa : (("a" : String) == "a") = true := by decide
    have hbb : (("b" : String) == "b") = true := by decide
    norm_num [validPairs, List.filterMap, List.find?, calculateMedian, validScores,
      List.insertionSort, List.orderedInsert, hab, hba, haa, hbb]
  have h2 : 2 ≤ (validPairs [⟨"a", "", "", "", some 3, none, none⟩,
      ⟨"b", "", "", "", some 4, none, none⟩]
      [⟨"a", 5, none, none⟩, ⟨"b", 5, none, none⟩]).length := by
    rw [hvp]
    norm_num
  have hvar : corrDenomX ((validPairs [⟨"a", "", "", "", some 3, none, none⟩,
        ⟨"b", "", "", "", some 4, none, none⟩]
        [⟨"a", 5, none, none⟩, ⟨"b", 5, none, none⟩]).map ComparisonPair.model)
      ((validPairs [⟨"a", "", "", "", some 3, none, none⟩,
        ⟨"b", "", "", "", some 4, none, none⟩]
        [⟨"a", 5, none, none⟩, ⟨"b", 5, none, none⟩]).map ComparisonPair.human) *
      corrDenomY ((validPairs [⟨"a", "", "", "", some 3, none, none⟩,
        ⟨"b", "", "", "", some 4, none, none⟩]
        [⟨"a", 5, none, none⟩, ⟨"b", 5, none, none⟩]).map ComparisonPair.model)
      ((validPairs [⟨"a", "", "", "", some 3, none, none⟩,
        ⟨"b", "", "", "", some 4, none, none⟩]
        [⟨"a", 5, none, none⟩, ⟨"b", 5, none, none⟩]).map ComparisonPair.human) = 0 := by
    rw [hvp]
    norm_num [corrDenomX, corrDenomY, List.zip]
  exact ⟨h2, (claim_C10_undefined_correlation_reported_zero _ _ h2 hvar).2⟩
